import Mathlib

/-!
Verification of the core telemetry engine of the mac-state-monitor repository:
the snapshot data model and rolling history buffer (src/model.rs), the alert
debouncer (src/alert.rs), and the metric collectors (src/monitor/*.rs).

Modelling conventions for the shallow embedding:
- Rust `f32` / `f64` values are modelled as exact rationals (ℚ); the claims under
  study concern the algebraic structure of the computations, not rounding.
- Rust `u64` / `usize` are modelled as ℕ; `saturating_sub` on them is ℕ subtraction.
- Rust `VecDeque` is a Lean `List`, front of the deque = head of the list
  (oldest element first); `pop_front` is `List.tail`, `push_back` appends.
- Rust `BTreeMap<String, VecDeque<f32>>` is an association list
  `List (String × List ℚ)`; the claims never depend on key ordering.
- `Instant` timestamps are rationals (seconds); `Duration::as_secs` is the
  floor to ℕ, saturating at zero when the clock moves backwards.
-/

/-! ## Snapshot data model (src/model.rs) -/

structure TemperatureReading where
  label : String
  temp_c : ℚ
deriving DecidableEq, Repr

structure TemperatureStats where
  readings : List TemperatureReading
deriving DecidableEq, Repr

structure CpuStats where
  global_usage : ℚ
  per_core_usage : List ℚ
  core_count : ℕ
deriving DecidableEq, Repr

structure MemoryStats where
  total_bytes : ℕ
  used_bytes : ℕ
  available_bytes : ℕ
  swap_total_bytes : ℕ
  swap_used_bytes : ℕ
  usage_percent : ℚ
deriving DecidableEq, Repr

structure DiskStats where
  name : String
  mount_point : String
  total_bytes : ℕ
  available_bytes : ℕ
  usage_percent : ℚ
deriving DecidableEq, Repr

structure NetworkStats where
  total_received_bytes : ℕ
  total_transmitted_bytes : ℕ
  received_per_sec : ℕ
  transmitted_per_sec : ℕ
deriving DecidableEq, Repr

/-- `SystemStats` without the `timestamp : Instant` field, which no claim under
study reads (the history buffer and alert manager ignore it; the alert manager
takes its own clock reading). -/
structure SystemStats where
  cpu : CpuStats
  memory : MemoryStats
  disks : List DiskStats
  network : NetworkStats
  temperature : TemperatureStats
deriving DecidableEq, Repr

/-! ## History buffer (src/model.rs, `HistoryBuffer`) -/

structure HistoryBuffer where
  temps : List (String × List ℚ)
  cpu_usage : List ℚ
  mem_usage : List ℚ
  net_down : List ℚ
  net_up : List ℚ
  max_points : ℕ
deriving DecidableEq, Repr

namespace HistoryBuffer

/-- `HistoryBuffer::new(max_points)`: note that the constructor performs no
validation of `max_points` (`with_capacity` is just an allocation hint). -/
def new (max_points : ℕ) : HistoryBuffer :=
  { temps := [], cpu_usage := [], mem_usage := [], net_down := [], net_up := [],
    max_points := max_points }

/-- `push_val_f32` / `push_val_f64`: if the deque is at (or beyond) `max`,
pop the oldest element, then append the new value at the back. -/
def pushVal (buf : List ℚ) (val : ℚ) (max : ℕ) : List ℚ :=
  (if max ≤ buf.length then buf.tail else buf) ++ [val]

/-- Folding `pushVal` over a list of values, oldest first. -/
def pushManyVals (buf : List ℚ) (vals : List ℚ) (max : ℕ) : List ℚ :=
  vals.foldl (fun b v => pushVal b v max) buf

/-- Association-list lookup for the `temps` map. -/
def lookupTemp : List (String × List ℚ) → String → Option (List ℚ)
  | [], _ => none
  | (k, v) :: rest, l => if k = l then some v else lookupTemp rest l

/-- `self.temps.entry(label).or_insert_with(empty)` followed by the capped push:
update the series of `label` in place, inserting a fresh empty series first if
the key is absent. -/
def updateTemp : List (String × List ℚ) → String → ℚ → ℕ → List (String × List ℚ)
  | [], label, t, max => [(label, pushVal [] t max)]
  | (k, v) :: rest, label, t, max =>
      if k = label then (k, pushVal v t max) :: rest
      else (k, v) :: updateTemp rest label t max

/-- The temperature loop of `HistoryBuffer::push`, over all readings of one
snapshot in order. -/
def pushTemps (temps : List (String × List ℚ)) (rs : List TemperatureReading)
    (max : ℕ) : List (String × List ℚ) :=
  rs.foldl (fun ts r => updateTemp ts r.label r.temp_c max) temps

/-- `HistoryBuffer::push(stats)`: per-label temperature pushes, then CPU, memory
and the two network series; network rates are stored divided by 1024 (KB/s). -/
def push (self : HistoryBuffer) (stats : SystemStats) : HistoryBuffer :=
  { self with
    temps := pushTemps self.temps stats.temperature.readings self.max_points,
    cpu_usage := pushVal self.cpu_usage stats.cpu.global_usage self.max_points,
    mem_usage := pushVal self.mem_usage stats.memory.usage_percent self.max_points,
    net_down := pushVal self.net_down
      ((stats.network.received_per_sec : ℚ) / 1024) self.max_points,
    net_up := pushVal self.net_up
      ((stats.network.transmitted_per_sec : ℚ) / 1024) self.max_points }

end HistoryBuffer

/-- The values that a list of readings contributes to the series of label `l`,
in order. -/
def valsOfReadings (l : String) (rs : List TemperatureReading) : List ℚ :=
  (rs.filter (fun r => r.label = l)).map (fun r => r.temp_c)

/-- The values that a list of snapshots contributes to the temperature series
of label `l`, in push order. -/
def valsOfSnapshots (l : String) (ss : List SystemStats) : List ℚ :=
  (ss.map (fun s => valsOfReadings l s.temperature.readings)).flatten

/-! ## String helpers

The sensor labels handled by the classifier are ASCII; Rust's
`str::to_lowercase`, `str::contains` and `str::starts_with` are modelled
bytewise on the character list of the string. -/

/-- ASCII lowercase of one character. -/
def lcChar (c : Char) : Char :=
  if 'A' ≤ c ∧ c ≤ 'Z' then Char.ofNat (c.toNat + 32) else c

/-- ASCII `to_lowercase`. -/
def lcString (s : String) : String := ⟨s.data.map lcChar⟩

/-- Does `pat` occur at the head of `hay`? -/
def charsHavePre (pat : List Char) : List Char → Bool
  | [] => pat.isEmpty
  | b :: bs =>
      match pat with
      | [] => true
      | a :: as => a == b && charsHavePre as bs

/-- Does `pat` occur anywhere in `hay`? -/
def charsHaveSub (pat : List Char) : List Char → Bool
  | [] => pat.isEmpty
  | b :: bs => charsHavePre pat (b :: bs) || charsHaveSub pat bs

/-- Rust `str::starts_with`. -/
def strHasPre (s pat : String) : Bool := charsHavePre pat.data s.data

/-- Rust `str::contains`. -/
def strHasSub (s pat : String) : Bool := charsHaveSub pat.data s.data

/-! ## Sensor classifier (src/monitor/temperature.rs, `collect_from`) -/

/-- One `sysinfo` component: a label and an optional temperature. -/
structure Component where
  label : String
  temperature : Option ℚ
deriving DecidableEq, Repr

/-- The four accumulators of the classification loop. -/
structure ClassifyAcc where
  cpu_temps : List ℚ
  gpu_temps : List ℚ
  ssd_temp : Option ℚ
  other : List (String × ℚ)
deriving DecidableEq, Repr

def classifyInit : ClassifyAcc := ⟨[], [], none, []⟩

/-- One iteration of the classification loop, in the source's branch order. -/
def classifyStep (acc : ClassifyAcc) (comp : Component) : ClassifyAcc :=
  match comp.temperature with
  | none => acc
  | some temp =>
    if temp ≤ 0 ∨ 150 < temp then acc
    else
      let lower := lcString comp.label
      if strHasSub lower "nand" || strHasSub lower "ssd" || strHasSub lower "disk" then
        { acc with ssd_temp := some temp }
      else if strHasPre lower "pmu tdie" then
        { acc with cpu_temps := acc.cpu_temps ++ [temp] }
      else if strHasPre lower "pmu2 tdie" then
        { acc with gpu_temps := acc.gpu_temps ++ [temp] }
      else if strHasPre lower "pmu tdev" then
        { acc with cpu_temps := acc.cpu_temps ++ [temp] }
      else if strHasSub lower "cpu" then
        { acc with cpu_temps := acc.cpu_temps ++ [temp] }
      else if strHasSub lower "gpu" then
        { acc with gpu_temps := acc.gpu_temps ++ [temp] }
      else if !(strHasSub lower "pmu") then
        { acc with other := acc.other ++ [(comp.label, temp)] }
      else acc

def classifyAll (comps : List Component) : ClassifyAcc :=
  comps.foldl classifyStep classifyInit

/-- The assembly phase: CPU average, GPU average, SSD, then the other labels in
encounter order. -/
def assembleReadings (acc : ClassifyAcc) : List TemperatureReading :=
  (if acc.cpu_temps.isEmpty then [] else
    [⟨"CPU", acc.cpu_temps.sum / (acc.cpu_temps.length : ℚ)⟩])
  ++ (if acc.gpu_temps.isEmpty then [] else
    [⟨"GPU", acc.gpu_temps.sum / (acc.gpu_temps.length : ℚ)⟩])
  ++ (match acc.ssd_temp with
      | some t => [⟨"SSD", t⟩]
      | none => [])
  ++ acc.other.map (fun p => ⟨p.1, p.2⟩)

/-- `collect_from`: classify, then assemble. The source's early return of
`TemperatureStats::default()` when the assembled list is empty produces the
same value as assembling the empty list, so it needs no separate branch. -/
def collect_from (comps : List Component) : TemperatureStats :=
  ⟨assembleReadings (classifyAll comps)⟩

/-- The predicate of the validity window `(0, 150]` used by the classifier. -/
def validComponent (c : Component) : Bool :=
  match c.temperature with
  | none => false
  | some t => decide (0 < t ∧ t ≤ 150)

/-- The value a component contributes to the SSD slot: its temperature when the
reading is valid and the lowercase label matches a storage keyword. -/
def ssdMatchVal (c : Component) : Option ℚ :=
  match c.temperature with
  | none => none
  | some temp =>
    if temp ≤ 0 ∨ 150 < temp then none
    else
      let lower := lcString c.label
      if strHasSub lower "nand" || strHasSub lower "ssd" || strHasSub lower "disk" then
        some temp
      else none

/-- The value a component contributes to the CPU bucket, following the branch
cascade of the classification loop. -/
def cpuMatchVal (c : Component) : Option ℚ :=
  match c.temperature with
  | none => none
  | some temp =>
    if temp ≤ 0 ∨ 150 < temp then none
    else
      let lower := lcString c.label
      if strHasSub lower "nand" || strHasSub lower "ssd" || strHasSub lower "disk" then
        none
      else if strHasPre lower "pmu tdie" then some temp
      else if strHasPre lower "pmu2 tdie" then none
      else if strHasPre lower "pmu tdev" then some temp
      else if strHasSub lower "cpu" then some temp
      else none

/-- The value a component contributes to the GPU bucket, following the branch
cascade of the classification loop. -/
def gpuMatchVal (c : Component) : Option ℚ :=
  match c.temperature with
  | none => none
  | some temp =>
    if temp ≤ 0 ∨ 150 < temp then none
    else
      let lower := lcString c.label
      if strHasSub lower "nand" || strHasSub lower "ssd" || strHasSub lower "disk" then
        none
      else if strHasPre lower "pmu tdie" then none
      else if strHasPre lower "pmu2 tdie" then some temp
      else if strHasPre lower "pmu tdev" then none
      else if strHasSub lower "cpu" then none
      else if strHasSub lower "gpu" then some temp
      else none

/-! ## Alert manager (src/alert.rs) -/

def COOLDOWN_SECS : ℕ := 60

structure AlertManager where
  cpu_threshold : ℚ
  mem_threshold : ℚ
  temp_threshold : ℚ
  last_cpu_alert : Option ℚ
  last_mem_alert : Option ℚ
  last_temp_alert : Option ℚ
deriving DecidableEq, Repr

def AlertManager.new : AlertManager := ⟨90, 90, 95, none, none, none⟩

/-- `now.duration_since(t).as_secs()`: the duration saturates at zero when the
clock reads earlier than `t`, and `as_secs` is the floor in whole seconds. -/
def durSecs (now t : ℚ) : ℕ := (⌊max (now - t) 0⌋).toNat

/-- `AlertManager::can_alert`. -/
def canAlert (last : Option ℚ) (now : ℚ) : Bool :=
  match last with
  | none => true
  | some t => COOLDOWN_SECS ≤ durSecs now t

/-- The max-temperature fold of `AlertManager::check`, starting from `0.0`. -/
def maxTemp (s : SystemStats) : ℚ :=
  s.temperature.readings.foldl (fun a r => max a r.temp_c) 0

/-- `AlertManager::check`: three independent threshold tests against one clock
reading; each firing branch emits one notification (modelled by its title; the
formatted message body carries no extra decision content) and records `now`.
The emitted list keeps the source order CPU, memory, temperature. -/
def AlertManager.check (m : AlertManager) (stats : SystemStats) (now : ℚ) :
    AlertManager × List String :=
  let cpuFire := decide (m.cpu_threshold ≤ stats.cpu.global_usage)
    && canAlert m.last_cpu_alert now
  let memFire := decide (m.mem_threshold ≤ stats.memory.usage_percent)
    && canAlert m.last_mem_alert now
  let tempFire := decide (m.temp_threshold ≤ maxTemp stats)
    && canAlert m.last_temp_alert now
  ({ m with
      last_cpu_alert := if cpuFire then some now else m.last_cpu_alert,
      last_mem_alert := if memFire then some now else m.last_mem_alert,
      last_temp_alert := if tempFire then some now else m.last_temp_alert },
    (if cpuFire then ["CPU Usage High"] else [])
      ++ (if memFire then ["Memory Usage High"] else [])
      ++ (if tempFire then ["Temperature High"] else []))

/-! ## Network collector (src/monitor/network.rs and the elapsed-time floor of
src/monitor/mod.rs, `SystemMonitor::poll`) -/

/-- `total_bytes`: sum the interfaces' cumulative counters. -/
def total_bytes (networks : List (ℕ × ℕ)) : ℕ × ℕ :=
  networks.foldl (fun a p => (a.1 + p.1, a.2 + p.2)) (0, 0)

def U64_MAX : ℕ := 2 ^ 64 - 1

/-- Rust `as u64` applied to a nonnegative `f64`: truncate toward zero
(the floor, for nonnegative input) and saturate at `u64::MAX`. -/
def f64ToU64 (q : ℚ) : ℕ := min (⌊q⌋).toNat U64_MAX

/-- `network::collect`: saturating deltas against the previous cumulative
counters, divided by the elapsed seconds. ℕ subtraction is Rust
`u64::saturating_sub`. -/
def networkCollect (networks : List (ℕ × ℕ)) (prev_rx prev_tx : ℕ)
    (elapsed_secs : ℚ) : NetworkStats × ℕ × ℕ :=
  let rx := (total_bytes networks).1
  let tx := (total_bytes networks).2
  let delta_rx := rx - prev_rx
  let delta_tx := tx - prev_tx
  (⟨rx, tx, f64ToU64 ((delta_rx : ℚ) / elapsed_secs),
    f64ToU64 ((delta_tx : ℚ) / elapsed_secs)⟩, rx, tx)

/-- The elapsed-seconds floor applied by `SystemMonitor::poll`:
`duration_since(last_poll).as_secs_f64().max(0.1)`. -/
def pollElapsed (raw_elapsed : ℚ) : ℚ := max raw_elapsed (1 / 10)

/-! ## Disk collector (src/monitor/disk.rs) -/

/-- One `sysinfo` disk as read by the collector. -/
structure DiskRaw where
  name : String
  mount_point : String
  total_space : ℕ
  available_space : ℕ
deriving DecidableEq, Repr

/-- The map phase of `disk::collect` for one disk. -/
def diskStatsOf (d : DiskRaw) : DiskStats :=
  let total := d.total_space
  let available := d.available_space
  let used := total - available
  let usage_percent : ℚ :=
    if 0 < total then ((used : ℚ) / (total : ℚ)) * 100 else 0
  ⟨d.name, d.mount_point, total, available, usage_percent⟩

/-- The filter-then-map of `disk::collect`. The `seen` accumulator models the
`HashSet` of names; Rust's `&&` short-circuits, so a name enters the set only
when the first two filter conditions already hold. -/
def diskCollectAux (seen : List String) : List DiskRaw → List DiskStats
  | [] => []
  | d :: rest =>
      if 0 < d.total_space ∧ ¬ strHasPre d.mount_point "/System/Volumes" then
        if d.name ∈ seen then diskCollectAux seen rest
        else diskStatsOf d :: diskCollectAux (d.name :: seen) rest
      else diskCollectAux seen rest

def diskCollect (disks : List DiskRaw) : List DiskStats := diskCollectAux [] disks

/-! ## Concrete inputs used by witnesses and counterexamples -/

/-- A snapshot with the given CPU usage, memory usage, network rates and
temperature readings; all other fields zero. -/
def mkStats (cpu mem : ℚ) (down up : ℕ) (rs : List TemperatureReading) : SystemStats :=
  { cpu := ⟨cpu, [], 0⟩,
    memory := ⟨0, 0, 0, 0, 0, mem⟩,
    disks := [],
    network := ⟨0, 0, down, up⟩,
    temperature := ⟨rs⟩ }

/-- One snapshot carrying a single "CPU" temperature reading. -/
def cpuTempStats (t : ℚ) : SystemStats := mkStats 0 0 0 0 [⟨"CPU", t⟩]

/-- The end-to-end run of spec §8: capacity 3, CPU temperatures 10, 20, 30, 40. -/
def c1ExampleRun : List SystemStats :=
  [cpuTempStats 10, cpuTempStats 20, cpuTempStats 30, cpuTempStats 40]

/-- The debounce scenario of spec §8: CPU usage 95 at t = 0. -/
def alertStep1 : AlertManager × List String :=
  AlertManager.new.check (mkStats 95 0 0 0 []) 0

/-- CPU usage 96 at t = 10, continuing from the first step. -/
def alertStep2 : AlertManager × List String :=
  alertStep1.1.check (mkStats 96 0 0 0 []) 10

/-- CPU usage 97 at t = 61, continuing from the second step. -/
def alertStep3 : AlertManager × List String :=
  alertStep2.1.check (mkStats 97 0 0 0 []) 61

def c9Buffer : HistoryBuffer :=
  { temps := [("CPU", [1])], cpu_usage := [2], mem_usage := [3],
    net_down := [4], net_up := [5], max_points := 5 }

def c9Snapshot : SystemStats := mkStats 7 0 0 0 [⟨"GPU", 55⟩]

/-! ### Buffer lemmas -/

namespace HistoryBuffer

theorem pushVal_length_le (buf : List ℚ) (val : ℚ) (max : ℕ)
    (h : buf.length ≤ max) : (pushVal buf val max).length ≤ max + 1 := by
  unfold pushVal
  split <;> simp_all <;> omega

theorem pushManyVals_append (buf : List ℚ) (vs ws : List ℚ) (max : ℕ) :
    pushManyVals buf (vs ++ ws) max = pushManyVals (pushManyVals buf vs max) ws max := by
  simp [pushManyVals, List.foldl_append]

theorem pushManyVals_cons (buf : List ℚ) (v : ℚ) (ws : List ℚ) (max : ℕ) :
    pushManyVals buf (v :: ws) max = pushManyVals (pushVal buf v max) ws max := rfl

theorem pushManyVals_nil (buf : List ℚ) (max : ℕ) :
    pushManyVals buf [] max = buf := rfl

/-- The central buffer theorem: starting from an empty series, pushing the
values `vs` one at a time with capacity `max ≥ 1` leaves exactly the last
`min (vs.length) max` values, oldest first. -/
theorem pushManyVals_nil_eq_drop (max : ℕ) (hmax : 1 ≤ max) (vs : List ℚ) :
    pushManyVals [] vs max = vs.drop (vs.length - max) := by
  induction vs using List.reverseRecOn with
  | nil => simp [pushManyVals]
  | append_singleton vs v ih =>
      rw [pushManyVals_append, ih, pushManyVals, List.foldl_cons, List.foldl_nil]
      unfold pushVal
      have hlen : (vs.drop (vs.length - max)).length = vs.length - (vs.length - max) := by
        simp
      by_cases hc : max ≤ vs.length
      · have hcond : max ≤ (vs.drop (vs.length - max)).length := by omega
        rw [if_pos hcond, List.tail_drop]
        have h1 : (vs ++ [v]).length - max = (vs.length - max) + 1 := by
          simp; omega
        rw [h1, List.drop_append_of_le_length (by omega)]
      · have hcond : ¬ max ≤ (vs.drop (vs.length - max)).length := by omega
        rw [if_neg hcond]
        have h0 : vs.length - max = 0 := by omega
        have h1 : (vs ++ [v]).length - max = 0 := by simp; omega
        rw [h0, h1, List.drop_zero, List.drop_zero]

theorem pushManyVals_length_le (buf : List ℚ) (vs : List ℚ) (max : ℕ) :
    (pushManyVals buf vs max).length ≤ buf.length + vs.length := by
  induction vs generalizing buf with
  | nil => simp [pushManyVals]
  | cons v ws ih =>
      rw [pushManyVals_cons]
      refine le_trans (ih _) ?_
      unfold pushVal
      split <;> simp <;> omega

theorem lookupTemp_updateTemp (ts : List (String × List ℚ)) (l l' : String)
    (t : ℚ) (max : ℕ) :
    lookupTemp (updateTemp ts l' t max) l =
      if l' = l then some (pushVal ((lookupTemp ts l).getD []) t max)
      else lookupTemp ts l := by
  induction ts with
  | nil =>
      by_cases h : l' = l <;> simp [updateTemp, lookupTemp, h]
  | cons p rest ih =>
      obtain ⟨k, v⟩ := p
      by_cases hk : k = l'
      · subst hk
        by_cases h : k = l <;> simp [updateTemp, lookupTemp, h]
      · by_cases h : k = l
        · have hne : ¬ l' = l := fun he => hk (h.trans he.symm)
          have hne2 : ¬ l = l' := fun he => hk (h.trans he)
          simp [updateTemp, lookupTemp, hk, h, hne, hne2]
        · simp [updateTemp, lookupTemp, hk, h, ih]

theorem lookupTemp_pushTemps (rs : List TemperatureReading)
    (ts : List (String × List ℚ)) (l : String) (max : ℕ) :
    lookupTemp (pushTemps ts rs max) l =
      if valsOfReadings l rs = [] then lookupTemp ts l
      else some (pushManyVals ((lookupTemp ts l).getD []) (valsOfReadings l rs) max) := by
  induction rs generalizing ts with
  | nil => simp [pushTemps, valsOfReadings]
  | cons r rest ih =>
      have hstep : pushTemps ts (r :: rest) max =
          pushTemps (updateTemp ts r.label r.temp_c max) rest max := rfl
      by_cases hl : r.label = l
      · have hvals : valsOfReadings l (r :: rest) = r.temp_c :: valsOfReadings l rest := by
          simp [valsOfReadings, List.filter_cons, hl]
        rw [hstep, ih, hvals, lookupTemp_updateTemp, if_pos hl]
        by_cases hrest : valsOfReadings l rest = []
        · simp [hrest, pushManyVals]
        · simp [hrest, pushManyVals_cons]
      · have hvals : valsOfReadings l (r :: rest) = valsOfReadings l rest := by
          simp [valsOfReadings, List.filter_cons, hl]
        rw [hstep, ih, hvals, lookupTemp_updateTemp, if_neg hl]

/-- Per-push characterization of a temperature series. -/
theorem lookupTemp_push (hb : HistoryBuffer) (s : SystemStats) (l : String) :
    lookupTemp (hb.push s).temps l =
      if valsOfReadings l s.temperature.readings = [] then lookupTemp hb.temps l
      else some (pushManyVals ((lookupTemp hb.temps l).getD [])
        (valsOfReadings l s.temperature.readings) hb.max_points) :=
  lookupTemp_pushTemps s.temperature.readings hb.temps l hb.max_points

theorem max_points_push (hb : HistoryBuffer) (s : SystemStats) :
    (hb.push s).max_points = hb.max_points := rfl

/-- Multi-push characterization of a temperature series: after pushing the
snapshots `ss`, the series of label `l` either was never touched (and is
whatever it was before), or holds the fold of all values pushed to `l`. -/
theorem lookupTemp_foldl_push (ss : List SystemStats) (hb : HistoryBuffer) (l : String) :
    lookupTemp (ss.foldl HistoryBuffer.push hb).temps l =
      if valsOfSnapshots l ss = [] then lookupTemp hb.temps l
      else some (pushManyVals ((lookupTemp hb.temps l).getD [])
        (valsOfSnapshots l ss) hb.max_points) := by
  induction ss generalizing hb with
  | nil => simp [valsOfSnapshots]
  | cons s rest ih =>
      have hvals : valsOfSnapshots l (s :: rest) =
          valsOfReadings l s.temperature.readings ++ valsOfSnapshots l rest := by
        simp [valsOfSnapshots]
      rw [List.foldl_cons, ih, max_points_push, lookupTemp_push, hvals]
      by_cases h1 : valsOfReadings l s.temperature.readings = []
      · simp [h1]
      · by_cases h2 : valsOfSnapshots l rest = []
        · simp [h1, h2, pushManyVals_append]
        · have hne : ¬ (valsOfReadings l s.temperature.readings ++ valsOfSnapshots l rest = []) := by
            simp [h1]
          rw [if_neg h2, if_neg hne, if_neg h1]
          simp [pushManyVals_append]

/-- The fixed series of the buffer after a fold of pushes. -/
theorem fixed_series_foldl_push (ss : List SystemStats) (hb : HistoryBuffer) :
    (ss.foldl HistoryBuffer.push hb).cpu_usage =
      pushManyVals hb.cpu_usage (ss.map (fun s => s.cpu.global_usage)) hb.max_points
    ∧ (ss.foldl HistoryBuffer.push hb).mem_usage =
      pushManyVals hb.mem_usage (ss.map (fun s => s.memory.usage_percent)) hb.max_points
    ∧ (ss.foldl HistoryBuffer.push hb).net_down =
      pushManyVals hb.net_down
        (ss.map (fun s => (s.network.received_per_sec : ℚ) / 1024)) hb.max_points
    ∧ (ss.foldl HistoryBuffer.push hb).net_up =
      pushManyVals hb.net_up
        (ss.map (fun s => (s.network.transmitted_per_sec : ℚ) / 1024)) hb.max_points := by
  induction ss generalizing hb with
  | nil => simp [pushManyVals]
  | cons s rest ih =>
      obtain ⟨h1, h2, h3, h4⟩ := ih (hb.push s)
      rw [List.foldl_cons]
      refine ⟨?_, ?_, ?_, ?_⟩
      · rw [h1]; simp [push, pushManyVals_cons]
      · rw [h2]; simp [push, pushManyVals_cons]
      · rw [h3]; simp [push, pushManyVals_cons]
      · rw [h4]; simp [push, pushManyVals_cons]

end HistoryBuffer

/-! ## Claim theorems: history buffer -/

/-- Claim C1, amended to capacities `N ≥ 1` (the code does not reject a
capacity of zero, and at capacity zero a push leaves one element in the
series): for every sequence of snapshots pushed into a fresh buffer of
capacity `N ≥ 1`, each fixed series and each temperature series holds exactly
the last `min (number of values pushed to it, N)` values pushed to it, in
push order (oldest first), and its length never exceeds `N`. -/
theorem c1_history_series_bounded_and_last (N : ℕ) (hN : 1 ≤ N) (ss : List SystemStats) :
    ((ss.foldl HistoryBuffer.push (HistoryBuffer.new N)).cpu_usage
        = (ss.map (fun s => s.cpu.global_usage)).drop (ss.length - N)
      ∧ (ss.foldl HistoryBuffer.push (HistoryBuffer.new N)).cpu_usage.length ≤ N)
    ∧ ((ss.foldl HistoryBuffer.push (HistoryBuffer.new N)).mem_usage
        = (ss.map (fun s => s.memory.usage_percent)).drop (ss.length - N)
      ∧ (ss.foldl HistoryBuffer.push (HistoryBuffer.new N)).mem_usage.length ≤ N)
    ∧ ((ss.foldl HistoryBuffer.push (HistoryBuffer.new N)).net_down
        = (ss.map (fun s => (s.network.received_per_sec : ℚ) / 1024)).drop (ss.length - N)
      ∧ (ss.foldl HistoryBuffer.push (HistoryBuffer.new N)).net_down.length ≤ N)
    ∧ ((ss.foldl HistoryBuffer.push (HistoryBuffer.new N)).net_up
        = (ss.map (fun s => (s.network.transmitted_per_sec : ℚ) / 1024)).drop (ss.length - N)
      ∧ (ss.foldl HistoryBuffer.push (HistoryBuffer.new N)).net_up.length ≤ N)
    ∧ ∀ l : String,
        (HistoryBuffer.lookupTemp (ss.foldl HistoryBuffer.push (HistoryBuffer.new N)).temps l
          = if valsOfSnapshots l ss = [] then none
            else some ((valsOfSnapshots l ss).drop ((valsOfSnapshots l ss).length - N)))
        ∧ ∀ b, HistoryBuffer.lookupTemp
            (ss.foldl HistoryBuffer.push (HistoryBuffer.new N)).temps l = some b →
            b.length ≤ N := by
  obtain ⟨h1, h2, h3, h4⟩ := HistoryBuffer.fixed_series_foldl_push ss (HistoryBuffer.new N)
  have hb0 : (HistoryBuffer.new N).cpu_usage = [] := rfl
  have hb1 : (HistoryBuffer.new N).mem_usage = [] := rfl
  have hb2 : (HistoryBuffer.new N).net_down = [] := rfl
  have hb3 : (HistoryBuffer.new N).net_up = [] := rfl
  have hbm : (HistoryBuffer.new N).max_points = N := rfl
  rw [hb0, hbm] at h1
  rw [hb1, hbm] at h2
  rw [hb2, hbm] at h3
  rw [hb3, hbm] at h4
  refine ⟨⟨?_, ?_⟩, ⟨?_, ?_⟩, ⟨?_, ?_⟩, ⟨?_, ?_⟩, ?_⟩
  · rw [h1, HistoryBuffer.pushManyVals_nil_eq_drop N hN]; simp
  · rw [h1, HistoryBuffer.pushManyVals_nil_eq_drop N hN]; simp; omega
  · rw [h2, HistoryBuffer.pushManyVals_nil_eq_drop N hN]; simp
  · rw [h2, HistoryBuffer.pushManyVals_nil_eq_drop N hN]; simp; omega
  · rw [h3, HistoryBuffer.pushManyVals_nil_eq_drop N hN]; simp
  · rw [h3, HistoryBuffer.pushManyVals_nil_eq_drop N hN]; simp; omega
  · rw [h4, HistoryBuffer.pushManyVals_nil_eq_drop N hN]; simp
  · rw [h4, HistoryBuffer.pushManyVals_nil_eq_drop N hN]; simp; omega
  · intro l
    have ht := HistoryBuffer.lookupTemp_foldl_push ss (HistoryBuffer.new N) l
    have hnil : HistoryBuffer.lookupTemp (HistoryBuffer.new N).temps l = none := rfl
    rw [hnil] at ht
    simp only [Option.getD_none] at ht
    have hmax : (HistoryBuffer.new N).max_points = N := rfl
    rw [hmax] at ht
    constructor
    · rw [ht]
      by_cases hv : valsOfSnapshots l ss = []
      · simp [hv]
      · rw [if_neg hv, if_neg hv, HistoryBuffer.pushManyVals_nil_eq_drop N hN]
    · intro b hb
      rw [ht] at hb
      by_cases hv : valsOfSnapshots l ss = []
      · rw [if_pos hv] at hb; cases hb
      · rw [if_neg hv, HistoryBuffer.pushManyVals_nil_eq_drop N hN] at hb
        have hb' := Option.some.inj hb
        subst hb'
        simp
        omega

/-- Witness for C1 at capacity 3: the end-to-end run of spec §8 leaves the
"CPU" temperature series `[20, 30, 40]`. -/
theorem c1_history_series_witness :
    (1 : ℕ) ≤ 3 ∧ HistoryBuffer.lookupTemp
      ((c1ExampleRun.foldl HistoryBuffer.push (HistoryBuffer.new 3)).temps) "CPU"
      = some [20, 30, 40] := by
  refine ⟨by norm_num, ?_⟩
  have h := ((c1_history_series_bounded_and_last 3 (by norm_num) c1ExampleRun).2.2.2.2 "CPU").1
  rw [h]
  decide

/-- Counterexample to C1 as stated: at capacity 0 (which the constructor
accepts), a single push leaves the cpu series at length 1, exceeding the
capacity. -/
theorem c1_counterexample_zero_capacity :
    ¬ (((HistoryBuffer.new 0).push (mkStats 50 0 0 0 [])).cpu_usage.length
        ≤ (HistoryBuffer.new 0).max_points) := by
  decide

/-- Claim C4 (code bug): `HistoryBuffer::new(0)` succeeds — the constructor
performs no validation of the capacity (it is only an allocation hint) — and a
subsequent push then stores one point in the zero-capacity buffer. -/
theorem c4_zero_capacity_accepted_by_new :
    (HistoryBuffer.new 0).max_points = 0
    ∧ ((HistoryBuffer.new 0).push (mkStats 50 0 0 0 [])).cpu_usage = [50] := by
  exact ⟨rfl, by decide⟩

/-- Claim C9: `HistoryBuffer::push` is append-only on the temperature map.
A label absent from the pushed snapshot keeps its series untouched; no key is
ever deleted; a label with no prior series gets a fresh series built only from
the values of this snapshot (no backfill), of length at most the number of
readings carrying that label. -/
theorem c9_push_append_only (hb : HistoryBuffer) (s : SystemStats) (l : String) :
    (valsOfReadings l s.temperature.readings = [] →
      HistoryBuffer.lookupTemp (hb.push s).temps l = HistoryBuffer.lookupTemp hb.temps l)
    ∧ ((HistoryBuffer.lookupTemp hb.temps l).isSome = true →
      (HistoryBuffer.lookupTemp (hb.push s).temps l).isSome = true)
    ∧ (HistoryBuffer.lookupTemp hb.temps l = none →
      HistoryBuffer.lookupTemp (hb.push s).temps l =
        if valsOfReadings l s.temperature.readings = [] then none
        else some (HistoryBuffer.pushManyVals []
          (valsOfReadings l s.temperature.readings) hb.max_points))
    ∧ (∀ b, HistoryBuffer.lookupTemp hb.temps l = none →
        HistoryBuffer.lookupTemp (hb.push s).temps l = some b →
        b.length ≤ (valsOfReadings l s.temperature.readings).length) := by
  have hp := HistoryBuffer.lookupTemp_push hb s l
  refine ⟨?_, ?_, ?_, ?_⟩
  · intro h; rw [hp, if_pos h]
  · intro h; rw [hp]
    by_cases hv : valsOfReadings l s.temperature.readings = []
    · rw [if_pos hv]; exact h
    · rw [if_neg hv]; rfl
  · intro h; rw [hp, h]
    by_cases hv : valsOfReadings l s.temperature.readings = []
    · rw [if_pos hv, if_pos hv]
    · rw [if_neg hv, if_neg hv]; rfl
  · intro b h hsome
    rw [hp, h] at hsome
    by_cases hv : valsOfReadings l s.temperature.readings = []
    · rw [if_pos hv] at hsome; cases hsome
    · rw [if_neg hv] at hsome
      have hb' := Option.some.inj hsome
      have := HistoryBuffer.pushManyVals_length_le
        ((none : Option (List ℚ)).getD []) (valsOfReadings l s.temperature.readings)
        hb.max_points
      simp only [Option.getD_none, List.length_nil, Nat.zero_add] at this
      rw [← hb']
      exact this

/-- Witness for C9: pushing a snapshot that only carries a "GPU" reading
leaves the existing "CPU" series untouched and creates the fresh "GPU" series
`[55]`. -/
theorem c9_push_append_only_witness :
    HistoryBuffer.lookupTemp ((c9Buffer.push c9Snapshot).temps) "CPU" = some [1]
    ∧ HistoryBuffer.lookupTemp ((c9Buffer.push c9Snapshot).temps) "GPU" = some [55] := by
  constructor
  · have h := (c9_push_append_only c9Buffer c9Snapshot "CPU").1 (by decide)
    rw [h]; decide
  · have h := (c9_push_append_only c9Buffer c9Snapshot "GPU").2.2.1 (by decide)
    rw [h]; decide

/-- Claim C10: the value appended to the network history series on each push is
the snapshot's per-second byte rate divided by 1024 (KB/s), not the raw rate. -/
theorem c10_network_series_in_kb (hb : HistoryBuffer) (s : SystemStats) :
    (hb.push s).net_down.getLast? = some ((s.network.received_per_sec : ℚ) / 1024)
    ∧ (hb.push s).net_up.getLast? = some ((s.network.transmitted_per_sec : ℚ) / 1024) := by
  constructor <;> simp [HistoryBuffer.push, HistoryBuffer.pushVal]

/-! ## Claim theorems: alert manager -/

/-- `duration_since(..).as_secs()` on whole-second instants with a monotone
clock is the plain difference of seconds. -/
theorem durSecs_coe (a b : ℕ) (h : b ≤ a) : durSecs (a : ℚ) (b : ℚ) = a - b := by
  unfold durSecs
  rw [← Nat.cast_sub h, max_eq_left (by positivity), Int.floor_natCast, Int.toNat_natCast]

/-- Membership in the three-part event list of `check`, per title. -/
theorem mem_check_events (b1 b2 b3 : Bool) :
    ("CPU Usage High" ∈ ((if b1 then ["CPU Usage High"] else [])
        ++ (if b2 then ["Memory Usage High"] else [])
        ++ (if b3 then ["Temperature High"] else [])) ↔ b1 = true)
    ∧ ("Memory Usage High" ∈ ((if b1 then ["CPU Usage High"] else [])
        ++ (if b2 then ["Memory Usage High"] else [])
        ++ (if b3 then ["Temperature High"] else [])) ↔ b2 = true)
    ∧ ("Temperature High" ∈ ((if b1 then ["CPU Usage High"] else [])
        ++ (if b2 then ["Memory Usage High"] else [])
        ++ (if b3 then ["Temperature High"] else [])) ↔ b3 = true) := by
  cases b1 <;> cases b2 <;> cases b3 <;> decide

/-- Claim C2: a `check` call emits an alert for a metric iff the metric is at
or above its threshold and the per-metric cooldown admits it (never alerted,
or at least 60 s — measured by the whole-second floor, which agrees with the
rational bound — since that metric's last alert); on emission the firing time
is recorded, each metric's cooldown state being tracked independently; and the
concrete debounce scenario fires exactly at t = 0 and t = 61, not at t = 10. -/
theorem c2_alert_threshold_cooldown :
    (∀ t now : ℚ, canAlert (some t) now = true ↔ (60 : ℚ) ≤ now - t)
    ∧ (∀ (m : AlertManager) (s : SystemStats) (now : ℚ),
        ("CPU Usage High" ∈ (m.check s now).2 ↔
          (m.cpu_threshold ≤ s.cpu.global_usage ∧ canAlert m.last_cpu_alert now = true))
        ∧ ("Memory Usage High" ∈ (m.check s now).2 ↔
          (m.mem_threshold ≤ s.memory.usage_percent ∧ canAlert m.last_mem_alert now = true))
        ∧ ("Temperature High" ∈ (m.check s now).2 ↔
          (m.temp_threshold ≤ maxTemp s ∧ canAlert m.last_temp_alert now = true)))
    ∧ (∀ (m : AlertManager) (s : SystemStats) (now : ℚ),
        (m.check s now).1.last_cpu_alert =
          (if m.cpu_threshold ≤ s.cpu.global_usage ∧ canAlert m.last_cpu_alert now = true
            then some now else m.last_cpu_alert)
        ∧ (m.check s now).1.last_mem_alert =
          (if m.mem_threshold ≤ s.memory.usage_percent ∧ canAlert m.last_mem_alert now = true
            then some now else m.last_mem_alert)
        ∧ (m.check s now).1.last_temp_alert =
          (if m.temp_threshold ≤ maxTemp s ∧ canAlert m.last_temp_alert now = true
            then some now else m.last_temp_alert))
    ∧ (alertStep1.2 = ["CPU Usage High"]
        ∧ alertStep2.2 = []
        ∧ alertStep3.2 = ["CPU Usage High"]) := by
  have hcan : ∀ t now : ℚ, canAlert (some t) now = true ↔ (60 : ℚ) ≤ now - t := by
    intro t now
    simp only [canAlert, COOLDOWN_SECS, durSecs, decide_eq_true_eq]
    constructor
    · intro h
      have h0 : (0 : ℚ) ≤ max (now - t) 0 := le_max_right _ _
      have hfl : (60 : ℤ) ≤ ⌊max (now - t) 0⌋ :=
        (Int.le_toNat (Int.floor_nonneg.mpr h0)).mp h
      have hq : (60 : ℚ) ≤ max (now - t) 0 := by exact_mod_cast Int.le_floor.mp hfl
      rcases le_max_iff.mp hq with h1 | h1
      · exact h1
      · norm_num at h1
    · intro h
      have hq : (60 : ℚ) ≤ max (now - t) 0 := le_trans h (le_max_left _ _)
      have hfl : (60 : ℤ) ≤ ⌊max (now - t) 0⌋ := Int.le_floor.mpr (by exact_mod_cast hq)
      exact (Int.le_toNat (le_trans (by norm_num) hfl)).mpr hfl
  refine ⟨hcan, ?_, ?_, ?_⟩
  · intro m s now
    have hm := mem_check_events
      (decide (m.cpu_threshold ≤ s.cpu.global_usage) && canAlert m.last_cpu_alert now)
      (decide (m.mem_threshold ≤ s.memory.usage_percent) && canAlert m.last_mem_alert now)
      (decide (m.temp_threshold ≤ maxTemp s) && canAlert m.last_temp_alert now)
    have hev : (m.check s now).2 =
        ((if (decide (m.cpu_threshold ≤ s.cpu.global_usage)
              && canAlert m.last_cpu_alert now) then ["CPU Usage High"] else [])
          ++ (if (decide (m.mem_threshold ≤ s.memory.usage_percent)
              && canAlert m.last_mem_alert now) then ["Memory Usage High"] else [])
          ++ (if (decide (m.temp_threshold ≤ maxTemp s)
              && canAlert m.last_temp_alert now) then ["Temperature High"] else [])) := rfl
    rw [hev]
    refine ⟨hm.1.trans ?_, hm.2.1.trans ?_, hm.2.2.trans ?_⟩ <;>
      rw [Bool.and_eq_true, decide_eq_true_eq]
  · intro m s now
    refine ⟨?_, ?_, ?_⟩
    · show (if (decide (m.cpu_threshold ≤ s.cpu.global_usage)
          && canAlert m.last_cpu_alert now) then some now else m.last_cpu_alert) = _
      by_cases h : m.cpu_threshold ≤ s.cpu.global_usage ∧ canAlert m.last_cpu_alert now = true
      · rw [if_pos h, if_pos (by rw [Bool.and_eq_true, decide_eq_true_eq]; exact h)]
      · rw [if_neg h, if_neg (by rw [Bool.and_eq_true, decide_eq_true_eq]; exact h)]
    · show (if (decide (m.mem_threshold ≤ s.memory.usage_percent)
          && canAlert m.last_mem_alert now) then some now else m.last_mem_alert) = _
      by_cases h : m.mem_threshold ≤ s.memory.usage_percent ∧ canAlert m.last_mem_alert now = true
      · rw [if_pos h, if_pos (by rw [Bool.and_eq_true, decide_eq_true_eq]; exact h)]
      · rw [if_neg h, if_neg (by rw [Bool.and_eq_true, decide_eq_true_eq]; exact h)]
    · show (if (decide (m.temp_threshold ≤ maxTemp s)
          && canAlert m.last_temp_alert now) then some now else m.last_temp_alert) = _
      by_cases h : m.temp_threshold ≤ maxTemp s ∧ canAlert m.last_temp_alert now = true
      · rw [if_pos h, if_pos (by rw [Bool.and_eq_true, decide_eq_true_eq]; exact h)]
      · rw [if_neg h, if_neg (by rw [Bool.and_eq_true, decide_eq_true_eq]; exact h)]
  · have hd10 : durSecs 10 0 = 10 := by
      have h := durSecs_coe 10 0 (by norm_num)
      simpa using h
    have hd61 : durSecs 61 0 = 61 := by
      have h := durSecs_coe 61 0 (by norm_num)
      simpa using h
    have hca10 : canAlert (some 0) 10 = false := by
      simp [canAlert, hd10, COOLDOWN_SECS]
    have hca61 : canAlert (some 0) 61 = true := by
      simp [canAlert, hd61, COOLDOWN_SECS]
    have h1 : alertStep1 =
        (AlertManager.mk 90 90 95 (some 0) none none, ["CPU Usage High"]) := by
      simp [alertStep1, AlertManager.check, AlertManager.new, mkStats, maxTemp, canAlert,
        decide_eq_true (show (90 : ℚ) ≤ 95 by norm_num),
        decide_eq_false (show ¬ (90 : ℚ) ≤ 0 by norm_num),
        decide_eq_false (show ¬ (95 : ℚ) ≤ 0 by norm_num)]
    have h2 : alertStep2 = (alertStep1.1, []) := by
      rw [alertStep2, h1]
      simp [AlertManager.check, mkStats, maxTemp, hca10,
        decide_eq_false (show ¬ (90 : ℚ) ≤ 0 by norm_num),
        decide_eq_false (show ¬ (95 : ℚ) ≤ 0 by norm_num)]
    have h3 : alertStep3.2 = ["CPU Usage High"] := by
      rw [alertStep3, h2, h1]
      simp [AlertManager.check, mkStats, maxTemp, hca61,
        decide_eq_true (show (90 : ℚ) ≤ 97 by norm_num),
        decide_eq_false (show ¬ (90 : ℚ) ≤ 0 by norm_num),
        decide_eq_false (show ¬ (95 : ℚ) ≤ 0 by norm_num)]
    exact ⟨by rw [h1], by rw [h2], h3⟩

/-! ## Claim theorems: network collector -/

/-- Claim C3: each cycle's rates are the saturating counter deltas divided by
the elapsed seconds, whose divisor is floored at 0.1 s by the poller; the
pre-truncation rate is never negative, and a cumulative counter that shrinks
between cycles (reset) yields a rate of exactly 0 rather than an underflow. -/
theorem c3_network_rate_formula (networks : List (ℕ × ℕ)) (prev_rx prev_tx : ℕ) (raw : ℚ) :
    ((1 : ℚ) / 10 ≤ pollElapsed raw)
    ∧ (networkCollect networks prev_rx prev_tx (pollElapsed raw)).1.received_per_sec
      = f64ToU64 ((((total_bytes networks).1 - prev_rx : ℕ) : ℚ) / pollElapsed raw)
    ∧ (networkCollect networks prev_rx prev_tx (pollElapsed raw)).1.transmitted_per_sec
      = f64ToU64 ((((total_bytes networks).2 - prev_tx : ℕ) : ℚ) / pollElapsed raw)
    ∧ (0 : ℚ) ≤ (((total_bytes networks).1 - prev_rx : ℕ) : ℚ) / pollElapsed raw
    ∧ (0 : ℚ) ≤ (((total_bytes networks).2 - prev_tx : ℕ) : ℚ) / pollElapsed raw
    ∧ ((total_bytes networks).1 ≤ prev_rx →
      (networkCollect networks prev_rx prev_tx (pollElapsed raw)).1.received_per_sec = 0)
    ∧ ((total_bytes networks).2 ≤ prev_tx →
      (networkCollect networks prev_rx prev_tx (pollElapsed raw)).1.transmitted_per_sec = 0) := by
  have hpos : (0 : ℚ) < pollElapsed raw :=
    lt_of_lt_of_le (by norm_num) (le_max_right _ _)
  refine ⟨le_max_right _ _, rfl, rfl, ?_, ?_, ?_, ?_⟩
  · exact div_nonneg (Nat.cast_nonneg _) (le_of_lt hpos)
  · exact div_nonneg (Nat.cast_nonneg _) (le_of_lt hpos)
  · intro h
    have hz : (total_bytes networks).1 - prev_rx = 0 := Nat.sub_eq_zero_of_le h
    show f64ToU64 ((((total_bytes networks).1 - prev_rx : ℕ) : ℚ) / pollElapsed raw) = 0
    rw [hz]
    simp [f64ToU64]
  · intro h
    have hz : (total_bytes networks).2 - prev_tx = 0 := Nat.sub_eq_zero_of_le h
    show f64ToU64 ((((total_bytes networks).2 - prev_tx : ℕ) : ℚ) / pollElapsed raw) = 0
    rw [hz]
    simp [f64ToU64]

/-- Witness for C3: a counter reset (cumulative 5 after a previous 100) with a
very short cycle (raw elapsed 0.01 s, floored to 0.1 s) still yields rate 0. -/
theorem c3_network_rate_witness :
    (networkCollect [(5, 7)] 100 2 (pollElapsed (1 / 100))).1.received_per_sec = 0 := by
  have h := (c3_network_rate_formula [(5, 7)] 100 2 (1 / 100)).2.2.2.2.2.1
  exact h (by decide)

/-! ## Claim theorems: disk collector -/

/-- Every disk emitted by the collector comes from an input disk with positive
total space, mapped through `diskStatsOf`. -/
theorem diskCollectAux_mem (ds : List DiskRaw) (seen : List String) :
    ∀ x ∈ diskCollectAux seen ds, ∃ d' ∈ ds, 0 < d'.total_space ∧ x = diskStatsOf d' := by
  induction ds generalizing seen with
  | nil => intro x hx; cases hx
  | cons d rest ih =>
      intro x hx
      unfold diskCollectAux at hx
      by_cases h1 : 0 < d.total_space ∧ ¬ strHasPre d.mount_point "/System/Volumes"
      · rw [if_pos h1] at hx
        by_cases h2 : d.name ∈ seen
        · rw [if_pos h2] at hx
          obtain ⟨d', hd', h⟩ := ih seen x hx
          exact ⟨d', List.mem_cons_of_mem _ hd', h⟩
        · rw [if_neg h2] at hx
          rcases List.mem_cons.mp hx with h | h
          · exact ⟨d, List.mem_cons_self _ _, h1.1, h⟩
          · obtain ⟨d', hd', h⟩ := ih (d.name :: seen) x h
            exact ⟨d', List.mem_cons_of_mem _ hd', h⟩
      · rw [if_neg h1] at hx
        obtain ⟨d', hd', h⟩ := ih seen x hx
        exact ⟨d', List.mem_cons_of_mem _ hd', h⟩

/-- Claim C8: usage percent is 0 for a zero-capacity disk and
`used / total · 100` otherwise (with the saturating subtraction of the code,
which agrees with `total − available` whenever `available ≤ total`); the
result always lies in `[0, 100]` with no explicit clamp, and every disk the
collector emits has positive total space. -/
theorem c8_disk_usage_percent (d : DiskRaw) :
    (d.total_space = 0 → (diskStatsOf d).usage_percent = 0)
    ∧ (0 < d.total_space →
        (diskStatsOf d).usage_percent
          = ((d.total_space - d.available_space : ℕ) : ℚ) / (d.total_space : ℚ) * 100)
    ∧ (d.available_space ≤ d.total_space → 0 < d.total_space →
        (diskStatsOf d).usage_percent
          = ((d.total_space : ℚ) - (d.available_space : ℚ)) / (d.total_space : ℚ) * 100)
    ∧ ((0 : ℚ) ≤ (diskStatsOf d).usage_percent ∧ (diskStatsOf d).usage_percent ≤ 100)
    ∧ (∀ ds : List DiskRaw, ∀ x ∈ diskCollect ds,
        ∃ d' ∈ ds, 0 < d'.total_space ∧ x = diskStatsOf d') := by
  have husage : (diskStatsOf d).usage_percent
      = if 0 < d.total_space
        then ((d.total_space - d.available_space : ℕ) : ℚ) / (d.total_space : ℚ) * 100
        else 0 := rfl
  refine ⟨?_, ?_, ?_, ?_, ?_⟩
  · intro h; rw [husage, if_neg (by omega)]
  · intro h; rw [husage, if_pos h]
  · intro hle h
    rw [husage, if_pos h, Nat.cast_sub hle]
  · rw [husage]
    by_cases h : 0 < d.total_space
    · rw [if_pos h]
      have htpos : (0 : ℚ) < (d.total_space : ℚ) := by exact_mod_cast h
      have hratio : ((d.total_space - d.available_space : ℕ) : ℚ) / (d.total_space : ℚ) ≤ 1 := by
        rw [div_le_one htpos]
        exact_mod_cast Nat.sub_le _ _
      constructor
      · positivity
      · calc ((d.total_space - d.available_space : ℕ) : ℚ) / (d.total_space : ℚ) * 100
            ≤ 1 * 100 := by
              exact mul_le_mul_of_nonneg_right hratio (by norm_num)
          _ = 100 := by norm_num
    · rw [if_neg h]; norm_num
  · intro ds x hx
    exact diskCollectAux_mem ds [] x hx

/-- Witness for C8: a 100-byte disk with 25 bytes available reports 75 %. -/
theorem c8_disk_usage_witness :
    (diskStatsOf ⟨"d1", "/", 100, 25⟩).usage_percent = 75 := by
  have h := (c8_disk_usage_percent ⟨"d1", "/", 100, 25⟩).2.1 (by norm_num)
  rw [h]
  norm_num

/-! ## Claim theorems: sensor classifier -/

theorem classifyStep_invalid (acc : ClassifyAcc) (c : Component)
    (h : validComponent c = false) : classifyStep acc c = acc := by
  obtain ⟨lbl, tmp⟩ := c
  cases tmp with
  | none => rfl
  | some t =>
      have ht : ¬ (0 < t ∧ t ≤ 150) := by simpa [validComponent] using h
      have hout : t ≤ 0 ∨ 150 < t := by
        by_cases h0 : 0 < t
        · exact Or.inr (by by_contra hle; exact ht ⟨h0, le_of_not_lt hle⟩)
        · exact Or.inl (le_of_not_lt h0)
      simp only [classifyStep]
      rw [if_pos hout]

theorem classify_filter_valid (comps : List Component) :
    ∀ acc : ClassifyAcc,
      (comps.filter validComponent).foldl classifyStep acc = comps.foldl classifyStep acc := by
  induction comps with
  | nil => intro acc; rfl
  | cons c rest ih =>
      intro acc
      by_cases hv : validComponent c = true
      · rw [List.filter_cons_of_pos hv, List.foldl_cons, List.foldl_cons]
        exact ih (classifyStep acc c)
      · rw [List.filter_cons_of_neg hv, List.foldl_cons,
          classifyStep_invalid acc c (Bool.not_eq_true _ ▸ eq_false_of_ne_true hv)]
        exact ih acc

theorem option_or_some_absorb (x y : Option ℚ) (t : ℚ) :
    (x.or (some t)).or y = x.or (some t) := by
  cases x <;> rfl

theorem getLast?_or_cons (l : List ℚ) :
    ∀ a : ℚ, (a :: l).getLast? = (l.getLast?).or (some a) := by
  induction l with
  | nil => intro a; rfl
  | cons b bs ih =>
      intro a
      rw [List.getLast?_cons_cons, ih b]
      exact (option_or_some_absorb _ _ _).symm

theorem classifyStep_ssd (acc : ClassifyAcc) (c : Component) :
    (classifyStep acc c).ssd_temp = (ssdMatchVal c).or acc.ssd_temp := by
  obtain ⟨lbl, tmp⟩ := c
  cases tmp with
  | none => rfl
  | some t =>
      simp only [classifyStep, ssdMatchVal]
      split_ifs <;> rfl

theorem classifyStep_cpu (acc : ClassifyAcc) (c : Component) :
    (classifyStep acc c).cpu_temps = acc.cpu_temps ++ (cpuMatchVal c).toList := by
  obtain ⟨lbl, tmp⟩ := c
  cases tmp with
  | none => simp [classifyStep, cpuMatchVal]
  | some t =>
      simp only [classifyStep, cpuMatchVal]
      split_ifs <;> simp

theorem classifyStep_gpu (acc : ClassifyAcc) (c : Component) :
    (classifyStep acc c).gpu_temps = acc.gpu_temps ++ (gpuMatchVal c).toList := by
  obtain ⟨lbl, tmp⟩ := c
  cases tmp with
  | none => simp [classifyStep, gpuMatchVal]
  | some t =>
      simp only [classifyStep, gpuMatchVal]
      split_ifs <;> simp

theorem classifyStep_other_subset (acc : ClassifyAcc) (c : Component) :
    ∀ p ∈ (classifyStep acc c).other,
      p ∈ acc.other
      ∨ (strHasSub (lcString p.1) "cpu" = false ∧ strHasSub (lcString p.1) "gpu" = false) := by
  obtain ⟨lbl, tmp⟩ := c
  cases tmp with
  | none => intro p hp; exact Or.inl hp
  | some t =>
      intro p hp
      simp only [classifyStep] at hp
      split_ifs at hp with h1 h2 h3 h4 h5 h6 h7 h8
      · exact Or.inl hp
      · exact Or.inl hp
      · exact Or.inl hp
      · exact Or.inl hp
      · exact Or.inl hp
      · exact Or.inl hp
      · exact Or.inl hp
      · rcases List.mem_append.mp hp with h | h
        · exact Or.inl h
        · have hpeq : p = (lbl, t) := List.mem_singleton.mp h
          subst hpeq
          exact Or.inr ⟨eq_false_of_ne_true h6, eq_false_of_ne_true h7⟩
      · exact Or.inl hp

theorem foldl_classifyStep_ssd (comps : List Component) :
    ∀ acc : ClassifyAcc,
      (comps.foldl classifyStep acc).ssd_temp
        = ((comps.filterMap ssdMatchVal).getLast?).or acc.ssd_temp := by
  induction comps with
  | nil => intro acc; rfl
  | cons c rest ih =>
      intro acc
      rw [List.foldl_cons, ih (classifyStep acc c), classifyStep_ssd]
      cases hv : ssdMatchVal c with
      | none => simp [List.filterMap_cons, hv]
      | some t =>
          rw [List.filterMap_cons_some hv, getLast?_or_cons]
          show ((rest.filterMap ssdMatchVal).getLast?).or ((some t).or acc.ssd_temp) = _
          rw [show (some t).or acc.ssd_temp = some t from rfl,
            option_or_some_absorb]

theorem foldl_classifyStep_cpu (comps : List Component) :
    ∀ acc : ClassifyAcc,
      (comps.foldl classifyStep acc).cpu_temps
        = acc.cpu_temps ++ comps.filterMap cpuMatchVal := by
  induction comps with
  | nil => intro acc; simp
  | cons c rest ih =>
      intro acc
      rw [List.foldl_cons, ih (classifyStep acc c), classifyStep_cpu]
      cases hv : cpuMatchVal c with
      | none => simp [List.filterMap_cons, hv]
      | some t => rw [List.filterMap_cons_some hv]; simp
  
theorem foldl_classifyStep_gpu (comps : List Component) :
    ∀ acc : ClassifyAcc,
      (comps.foldl classifyStep acc).gpu_temps
        = acc.gpu_temps ++ comps.filterMap gpuMatchVal := by
  induction comps with
  | nil => intro acc; simp
  | cons c rest ih =>
      intro acc
      rw [List.foldl_cons, ih (classifyStep acc c), classifyStep_gpu]
      cases hv : gpuMatchVal c with
      | none => simp [List.filterMap_cons, hv]
      | some t => rw [List.filterMap_cons_some hv]; simp

theorem foldl_classifyStep_other (comps : List Component) :
    ∀ acc : ClassifyAcc,
      (∀ p ∈ acc.other,
        strHasSub (lcString p.1) "cpu" = false ∧ strHasSub (lcString p.1) "gpu" = false) →
      ∀ p ∈ (comps.foldl classifyStep acc).other,
        strHasSub (lcString p.1) "cpu" = false ∧ strHasSub (lcString p.1) "gpu" = false := by
  induction comps with
  | nil => intro acc hacc; exact hacc
  | cons c rest ih =>
      intro acc hacc
      rw [List.foldl_cons]
      refine ih (classifyStep acc c) ?_
      intro p hp
      rcases classifyStep_other_subset acc c p hp with h | h
      · exact hacc p h
      · exact h

theorem classifyAll_other_labels (comps : List Component) :
    ∀ p ∈ (classifyAll comps).other,
      strHasSub (lcString p.1) "cpu" = false ∧ strHasSub (lcString p.1) "gpu" = false := by
  refine foldl_classifyStep_other comps classifyInit ?_
  intro p hp
  cases hp

/-- Claim C5: the classifier output is invariant under removing readings
outside the validity window `(0, 150]` (missing or out-of-window readings
contribute to no category and no output reading); a 200 °C reading alone
produces an empty output. -/
theorem c5_validity_window (comps : List Component) :
    collect_from comps = collect_from (comps.filter validComponent)
    ∧ collect_from [⟨"CPU Die", some 200⟩] = ⟨[]⟩ := by
  constructor
  · unfold collect_from classifyAll
    rw [classify_filter_valid comps classifyInit]
  · decide

/-- Claim C7: the SSD slot holds the last storage-matching valid reading in
iteration order (later matches overwrite earlier ones, no averaging); on the
spec's example the SSD output is 41, not the average 39.5. -/
theorem c7_ssd_last_write_wins (comps : List Component) :
    (classifyAll comps).ssd_temp = (comps.filterMap ssdMatchVal).getLast?
    ∧ collect_from [⟨"NAND Temp", some 38⟩, ⟨"SSD Sensor", some 41⟩]
      = ⟨[⟨"SSD", 41⟩]⟩ := by
  constructor
  · have h := foldl_classifyStep_ssd comps classifyInit
    simpa [classifyAll, classifyInit] using h
  · decide

/-- Claim C6: the CPU and GPU buckets are exactly the valid readings matched to
those categories by the branch cascade, in encounter order; whenever the CPU
(respectively GPU) bucket is non-empty, the output has exactly one "CPU"
(respectively "GPU") reading whose value is that bucket's arithmetic mean, the
CPU reading coming first and the GPU reading right after it (first, when no CPU
reading exists); unconditionally, the output is ordered CPU, GPU, SSD, then
other labels in encounter order. -/
theorem c6_cpu_gpu_mean_order (comps : List Component) :
    (classifyAll comps).cpu_temps = comps.filterMap cpuMatchVal
    ∧ (classifyAll comps).gpu_temps = comps.filterMap gpuMatchVal
    ∧ ((classifyAll comps).cpu_temps ≠ [] →
        (collect_from comps).readings.countP (fun r => r.label == "CPU") = 1
        ∧ (collect_from comps).readings.head? =
          some ⟨"CPU", (classifyAll comps).cpu_temps.sum
            / ((classifyAll comps).cpu_temps.length : ℚ)⟩)
    ∧ ((classifyAll comps).gpu_temps ≠ [] →
        (collect_from comps).readings.countP (fun r => r.label == "GPU") = 1
        ∧ (collect_from comps).readings[
            (if (classifyAll comps).cpu_temps.isEmpty then 0 else 1)]? =
          some ⟨"GPU", (classifyAll comps).gpu_temps.sum
            / ((classifyAll comps).gpu_temps.length : ℚ)⟩)
    ∧ (collect_from comps).readings =
        (if (classifyAll comps).cpu_temps.isEmpty then [] else
          [⟨"CPU", (classifyAll comps).cpu_temps.sum
            / ((classifyAll comps).cpu_temps.length : ℚ)⟩])
        ++ (if (classifyAll comps).gpu_temps.isEmpty then [] else
          [⟨"GPU", (classifyAll comps).gpu_temps.sum
            / ((classifyAll comps).gpu_temps.length : ℚ)⟩])
        ++ (match (classifyAll comps).ssd_temp with
            | some t => [⟨"SSD", t⟩]
            | none => [])
        ++ (classifyAll comps).other.map (fun p => ⟨p.1, p.2⟩) := by
  have hotherCPU : ∀ r ∈ (classifyAll comps).other.map
      (fun p => (⟨p.1, p.2⟩ : TemperatureReading)), (r.label == "CPU") = false := by
    intro r hr
    obtain ⟨p, hp, hpr⟩ := List.mem_map.mp hr
    obtain ⟨hc, _⟩ := classifyAll_other_labels comps p hp
    have : p.1 ≠ "CPU" := by
      intro he
      rw [he] at hc
      exact absurd hc (by decide)
    rw [← hpr]
    exact beq_eq_false_iff_ne.mpr this
  have hotherGPU : ∀ r ∈ (classifyAll comps).other.map
      (fun p => (⟨p.1, p.2⟩ : TemperatureReading)), (r.label == "GPU") = false := by
    intro r hr
    obtain ⟨p, hp, hpr⟩ := List.mem_map.mp hr
    obtain ⟨_, hg⟩ := classifyAll_other_labels comps p hp
    have : p.1 ≠ "GPU" := by
      intro he
      rw [he] at hg
      exact absurd hg (by decide)
    rw [← hpr]
    exact beq_eq_false_iff_ne.mpr this
  have hcntO : ((classifyAll comps).other.map
      (fun p => (⟨p.1, p.2⟩ : TemperatureReading))).countP (fun r => r.label == "CPU") = 0 :=
    List.countP_eq_zero.mpr (by
      intro r hr
      simp [hotherCPU r hr])
  have hcntOG : ((classifyAll comps).other.map
      (fun p => (⟨p.1, p.2⟩ : TemperatureReading))).countP (fun r => r.label == "GPU") = 0 :=
    List.countP_eq_zero.mpr (by
      intro r hr
      simp [hotherGPU r hr])
  have hssdCPU : (match (classifyAll comps).ssd_temp with
      | some t => [(⟨"SSD", t⟩ : TemperatureReading)]
      | none => []).countP (fun r : TemperatureReading => r.label == "CPU") = 0 := by
    cases (classifyAll comps).ssd_temp <;> simp
  have hssdGPU : (match (classifyAll comps).ssd_temp with
      | some t => [(⟨"SSD", t⟩ : TemperatureReading)]
      | none => []).countP (fun r : TemperatureReading => r.label == "GPU") = 0 := by
    cases (classifyAll comps).ssd_temp <;> simp
  refine ⟨by simpa [classifyAll, classifyInit] using foldl_classifyStep_cpu comps classifyInit,
    by simpa [classifyAll, classifyInit] using foldl_classifyStep_gpu comps classifyInit,
    ?_, ?_, rfl⟩
  · intro hcpu
    have hcE : (classifyAll comps).cpu_temps.isEmpty = false := by
      cases h : (classifyAll comps).cpu_temps with
      | nil => exact absurd h hcpu
      | cons a l => rfl
    have hreadings : (collect_from comps).readings =
        ⟨"CPU", (classifyAll comps).cpu_temps.sum
          / ((classifyAll comps).cpu_temps.length : ℚ)⟩
        :: ((if (classifyAll comps).gpu_temps.isEmpty then [] else
              [⟨"GPU", (classifyAll comps).gpu_temps.sum
                / ((classifyAll comps).gpu_temps.length : ℚ)⟩])
          ++ (match (classifyAll comps).ssd_temp with
              | some t => [⟨"SSD", t⟩]
              | none => [])
          ++ (classifyAll comps).other.map (fun p => ⟨p.1, p.2⟩)) := by
      show (assembleReadings (classifyAll comps)) = _
      rw [assembleReadings, hcE]
      simp
    constructor
    · rw [hreadings, List.countP_cons, List.countP_append, List.countP_append, hcntO]
      have h1 : (if (classifyAll comps).gpu_temps.isEmpty then ([] : List TemperatureReading)
          else [⟨"GPU", (classifyAll comps).gpu_temps.sum
            / ((classifyAll comps).gpu_temps.length : ℚ)⟩]).countP
          (fun r => r.label == "CPU") = 0 := by
        split <;> simp
      rw [h1, hssdCPU]
      simp
    · rw [hreadings]
      rfl
  · intro hgpu
    have hgE : (classifyAll comps).gpu_temps.isEmpty = false := by
      cases h : (classifyAll comps).gpu_temps with
      | nil => exact absurd h hgpu
      | cons a l => rfl
    have hreadings : (collect_from comps).readings =
        (if (classifyAll comps).cpu_temps.isEmpty then [] else
          [⟨"CPU", (classifyAll comps).cpu_temps.sum
            / ((classifyAll comps).cpu_temps.length : ℚ)⟩])
        ++ (⟨"GPU", (classifyAll comps).gpu_temps.sum
            / ((classifyAll comps).gpu_temps.length : ℚ)⟩
          :: ((match (classifyAll comps).ssd_temp with
              | some t => [⟨"SSD", t⟩]
              | none => [])
            ++ (classifyAll comps).other.map (fun p => ⟨p.1, p.2⟩))) := by
      show (assembleReadings (classifyAll comps)) = _
      rw [assembleReadings, hgE]
      simp
    constructor
    · rw [hreadings, List.countP_append, List.countP_cons, List.countP_append, hcntOG, hssdGPU]
      have h1 : (if (classifyAll comps).cpu_temps.isEmpty then ([] : List TemperatureReading)
          else [⟨"CPU", (classifyAll comps).cpu_temps.sum
            / ((classifyAll comps).cpu_temps.length : ℚ)⟩]).countP
          (fun r => r.label == "GPU") = 0 := by
        split <;> simp
      rw [h1]
      simp
    · by_cases hcE2 : (classifyAll comps).cpu_temps.isEmpty = true
      · rw [hreadings, hcE2]
        simp
      · have hcE3 : (classifyAll comps).cpu_temps.isEmpty = false := eq_false_of_ne_true hcE2
        rw [hreadings, hcE3]
        simp

/-- Witness for C6, both halves: the spec's CPU example ("PMU Tdie1", 40) and
("PMU Tdie2", 44) yields a first reading "CPU" with value 42, and the
CPU-empty GPU example ("GPU Die", 55) yields a first reading "GPU" with
value 55. -/
theorem c6_cpu_gpu_mean_order_witness :
    ((classifyAll [⟨"PMU Tdie1", some 40⟩, ⟨"PMU Tdie2", some 44⟩]).cpu_temps ≠ []
      ∧ (collect_from [⟨"PMU Tdie1", some 40⟩, ⟨"PMU Tdie2", some 44⟩]).readings.head?
        = some ⟨"CPU", 42⟩)
    ∧ ((classifyAll [⟨"GPU Die", some 55⟩]).gpu_temps ≠ []
      ∧ (collect_from [⟨"GPU Die", some 55⟩]).readings[0]? = some ⟨"GPU", 55⟩) := by
  constructor
  · refine ⟨by decide, ?_⟩
    have h := ((c6_cpu_gpu_mean_order
      [⟨"PMU Tdie1", some 40⟩, ⟨"PMU Tdie2", some 44⟩]).2.2.1 (by decide)).2
    rw [h]
    have hcl : (classifyAll [⟨"PMU Tdie1", some 40⟩, ⟨"PMU Tdie2", some 44⟩]).cpu_temps
        = [40, 44] := by decide
    rw [hcl]
    norm_num [List.sum_cons, List.sum_nil]
  · refine ⟨by decide, ?_⟩
    have h := ((c6_cpu_gpu_mean_order [⟨"GPU Die", some 55⟩]).2.2.2.1 (by decide)).2
    have hidx : (if (classifyAll [⟨"GPU Die", some 55⟩]).cpu_temps.isEmpty
        then 0 else 1) = 0 := by decide
    rw [hidx] at h
    have hgl : (classifyAll [⟨"GPU Die", some 55⟩]).gpu_temps = [55] := by decide
    rw [hgl] at h
    rw [h]
    norm_num [List.sum_cons, List.sum_nil]
